import Mathlib

/-!
Verification development for the go-logger repository (src/logger.go).

The repository is three evolving versions of one Go file; the final version
(the implementation target, lines 831-1298 of src/logger.go) is embedded
here. Go strings are modelled as lists of characters; the claims only
concern ASCII text, where Go's byte indexing and character indexing agree.
Go runtime panics (out-of-range index, negative slice bound and the
explicit panic in log) are modelled with Option: a result of none is a
call that panicked before returning.
-/

/-- Go string, modelled as a list of characters. -/
abbrev Str := List Char

/-- Embeds Go: type Level int (src/logger.go line 847). -/
abbrev Level := Int

/-- Embeds the Level iota constant TRACE = 0 (src/logger.go lines 889-896). -/
def TRACE : Level := 0

/-- Embeds the Level iota constant DEBUG = 1. -/
def DEBUG : Level := 1

/-- Embeds the Level iota constant INFO = 2. -/
def INFO : Level := 2

/-- Embeds the Level iota constant WARN = 3. -/
def WARN : Level := 3

/-- Embeds the Level iota constant ERROR = 4. -/
def ERROR : Level := 4

/-- Embeds the Level iota constant FATAL = 5. -/
def FATAL : Level := 5

/-- Embeds (Level).Short (src/logger.go lines 849-866): the one-character
form of a severity; any out-of-range value yields "?". -/
def Level.Short (level : Level) : Str :=
  if level = TRACE then ['T']
  else if level = DEBUG then ['D']
  else if level = INFO then ['I']
  else if level = WARN then ['W']
  else if level = ERROR then ['E']
  else if level = FATAL then ['F']
  else ['?']

/-- Embeds (Level).Long (src/logger.go lines 867-884). -/
def Level.Long (level : Level) : Str :=
  if level = TRACE then "TRACE".data
  else if level = DEBUG then "DEBUG".data
  else if level = INFO then "INFO".data
  else if level = WARN then "WARN".data
  else if level = ERROR then "ERROR".data
  else if level = FATAL then "FATAL".data
  else ['?']

/-- Embeds Go: type Format int with the iota constants PLAIN and JSON
(src/logger.go lines 898-903).  The spec's data model treats Format as the
enumeration \x7bPLAIN, STRUCTURED\x7d, so it is embedded as the two-valued
enumeration. -/
inductive Format where
  | PLAIN
  | JSON
deriving DecidableEq

/-- The output sink (Go: io.Writer).  The logger only ever inspects whether
the attached writer is an operating-system file handle and, if so, whether
that handle is an interactive terminal (src/logger.go lines 940-952); any
other writer (an in-memory buffer, for example) is opaque.  The terminal
probe (golang.org/x/term, an external collaborator per the spec) is
embedded as the Boolean carried by the file constructor. -/
inductive Sink where
  | file (isTerminal : Bool)
  | other
deriving DecidableEq

/-- Embeds the cls color-palette record (src/logger.go lines 1265-1278).
The colors package (repository code not under src/) supplies the Color
string type; each field here is the escape-sequence string itself. -/
structure cls where
  Default : Str
  Timestamp : Str
  Trace : Str
  Debug : Str
  Info : Str
  Warn : Str
  Error : Str
  Fatal : Str
  Logger : Str
  GoRoutine : Str
  Message : Str
  MessageLevel : Bool
deriving DecidableEq

/-- Modelled from the spec: the colors package (repository code that is not
under src/) maps each role of the "on" palette to a real ANSI escape
sequence (spec section 4.3).  The concrete sequences follow the ANSI color
table spelled out in the repository's own middle version (src/logger.go
lines 790-830: GREY = ESC[90m, BEIGE = ESC[36m, BLUE = ESC[34m,
BLUE2 = ESC[94m, YELLOW = ESC[33m, YELLOW2 = ESC[93m, RED = ESC[31m,
RED2 = ESC[91m, VIOLET = ESC[35m, VIOLET2 = ESC[95m, WHITE = ESC[37m).
Role assignment per clsOn (src/logger.go lines 1280-1293). -/
def clsOn : cls :=
  { Default := "\x1b[90m".data
    Timestamp := "\x1b[36m".data
    Trace := "\x1b[34m".data
    Debug := "\x1b[94m".data
    Info := "\x1b[33m".data
    Warn := "\x1b[93m".data
    Error := "\x1b[31m".data
    Fatal := "\x1b[91m".data
    Logger := "\x1b[35m".data
    GoRoutine := "\x1b[95m".data
    Message := "\x1b[37m".data
    MessageLevel := true }

/-- Embeds clsOff (src/logger.go lines 1295-1298): every sequence empty,
MessageLevel false. -/
def clsOff : cls :=
  { Default := [], Timestamp := [], Trace := [], Debug := [], Info := []
    Warn := [], Error := [], Fatal := [], Logger := [], GoRoutine := []
    Message := [], MessageLevel := false }

/-- Modelled from the spec: the package-level reset sequence colors.END of
the colors package (repository code not under src/), written by logPlain at
src/logger.go line 1151.  The spec's "on" palette maps the reset role to
the real ANSI reset sequence, matching cEND = ESC[0m in the repository's
middle version (src/logger.go line 791). -/
def colorsEND : Str := "\x1b[0m".data

/-- Embeds the Logger struct (src/logger.go lines 905-915). -/
structure Logger where
  out : Sink
  name : Str
  level : Level
  format : Format
  colorizedSet : Bool
  colors : cls
  panicOnFatal : Bool
  maxNameLength : Int
  maxGoroutineNameLength : Int
deriving DecidableEq

/-- Embeds the Event struct (src/logger.go lines 917-923).  The creation
timestamp is carried in its rendered RFC3339 form (time.Time and its
formatting are external collaborators); Err is the error's description
string, none for a nil error. -/
structure Event where
  Timestamp : Str
  GoroutineId : Str
  Level : Level
  Message : Str
  Err : Option Str
deriving DecidableEq

/-- The observable result of one logging call that returned normally:
the line written to the sink (none when the severity filter dropped the
event) and, for the fatal-abort path, some payload when the call ended in
panic(event.Err) after rendering. -/
structure LogResult where
  output : Option Str
  abort : Option (Option Str)
deriving DecidableEq

/-- Embeds NewLogger (src/logger.go lines 926-938).  os.Stderr is an
ambient operating-system handle, passed here as the stderr parameter. -/
def NewLogger (name : Str) (stderr : Sink) : Logger :=
  { out := stderr
    level := WARN
    name := name
    format := Format.PLAIN
    colorizedSet := false
    colors := clsOn
    panicOnFatal := false
    maxNameLength := 10
    maxGoroutineNameLength := 10 }

/-- Embeds (Logger).Out (src/logger.go lines 940-952): attaches the sink;
when color was never explicitly forced and the sink is an os.File, the
palette is re-derived from the terminal probe; otherwise it is left
unchanged. -/
def Logger.Out (logger : Logger) (out : Sink) : Logger :=
  { logger with
    out := out
    colors :=
      if logger.colorizedSet = true then logger.colors
      else
        match out with
        | Sink.file isTerminal => if isTerminal then clsOn else clsOff
        | Sink.other => logger.colors }

/-- Embeds (Logger).Format (src/logger.go lines 953-956). -/
def Logger.SetFormat (logger : Logger) (format : Format) : Logger :=
  { logger with format := format }

/-- Embeds (Logger).Level (src/logger.go lines 957-960). -/
def Logger.SetLevel (logger : Logger) (level : Level) : Logger :=
  { logger with level := level }

/-- Embeds (Logger).Colorized (src/logger.go lines 961-969). -/
def Logger.Colorized (logger : Logger) (colorized : Bool) : Logger :=
  { logger with
    colorizedSet := true
    colors := if colorized then clsOn else clsOff }

/-- Embeds (Logger).PanicOnFatal (src/logger.go lines 970-973). -/
def Logger.SetPanicOnFatal (logger : Logger) (panicOnFatal : Bool) : Logger :=
  { logger with panicOnFatal := panicOnFatal }

/-- Embeds stringToLength (src/logger.go lines 1205-1213).  A longer
string is cut to s[:length-3] with "..." appended; Go's slice expression
s[:length-3] panics when length-3 is negative, modelled as none.  A
shorter string is right-padded with spaces. -/
def stringToLength (str : Str) (length : Int) : Option Str :=
  if (str.length : Int) > length then
    if length - 3 < 0 then none
    else some (str.take (length - 3).toNat ++ "...".data)
  else if (str.length : Int) < length then
    some (str ++ List.replicate (length - str.length).toNat ' ')
  else some str

/-- The guarded field-shaping pattern used identically for the logger-name
and goroutine-name fields of logPlain (src/logger.go lines 1129-1133 and
1138-1142): stringToLength is applied only when the configured width is
positive. -/
def fieldShape (s : Str) (w : Int) : Option Str :=
  if w > 0 then stringToLength s w else some s

/-- Embeds levelColored (src/logger.go lines 1156-1173). -/
def levelColored (logger : Logger) (level : Level) : Str :=
  if level = TRACE then logger.colors.Trace
  else if level = DEBUG then logger.colors.Debug
  else if level = INFO then logger.colors.Info
  else if level = WARN then logger.colors.Warn
  else if level = ERROR then logger.colors.Error
  else if level = FATAL then logger.colors.Fatal
  else logger.colors.Default

/-- Embeds messageColored (src/logger.go lines 1174-1203). -/
def messageColored (logger : Logger) (level : Level) : Str :=
  if level = TRACE then logger.colors.Message
  else if level = DEBUG then logger.colors.Message
  else if level = INFO then logger.colors.Message
  else if level = WARN then
    if logger.colors.MessageLevel then logger.colors.Warn else logger.colors.Message
  else if level = ERROR then
    if logger.colors.MessageLevel then logger.colors.Error else logger.colors.Message
  else if level = FATAL then
    if logger.colors.MessageLevel then logger.colors.Fatal else logger.colors.Message
  else logger.colors.Default

/-- Embeds (Logger).logPlain (src/logger.go lines 1119-1154): the rendered
plain-text line, or none when a field-shaping slice panicked.  Note the
final reset written before the newline is the package-level colors.END
(line 1151), not a field of the logger's palette. -/
def Logger.logPlain (logger : Logger) (event : Event) : Option Str := do
  let name ← fieldShape logger.name logger.maxNameLength
  let goId ← fieldShape event.GoroutineId logger.maxGoroutineNameLength
  some (logger.colors.Timestamp ++ event.Timestamp
    ++ levelColored logger event.Level
    ++ " -".data ++ Level.Short event.Level ++ "-".data
    ++ logger.colors.Logger ++ " [".data ++ name ++ "] ".data
    ++ logger.colors.GoRoutine ++ "(".data ++ goId ++ ") ".data
    ++ messageColored logger event.Level ++ event.Message
    ++ (match event.Err with
        | some e => ": ".data ++ e
        | none => ([] : Str))
    ++ colorsEND ++ ['\n'])

/-- One hexadecimal digit, lower case (for the \u00XX escapes emitted by
Go's JSON encoder for control characters). -/
def hexDigit (n : Nat) : Char :=
  if n < 10 then Char.ofNat ('0'.toNat + n) else Char.ofNat ('a'.toNat + n - 10)

/-- Models the escaping that Go's encoding/json applies to one character
of a string value: quote and backslash are backslash-escaped, the common
control characters use their short escapes, the HTML-sensitive characters
and remaining control characters use \u00XX. -/
def jsonEsc (c : Char) : Str :=
  if c = '"' then ['\\', '"']
  else if c = '\\' then ['\\', '\\']
  else if c = '\n' then ['\\', 'n']
  else if c = '\r' then ['\\', 'r']
  else if c = '\t' then ['\\', 't']
  else if c = '<' then "\\u003c".data
  else if c = '>' then "\\u003e".data
  else if c = '&' then "\\u0026".data
  else if c.toNat < 32 then "\\u00".data ++ [hexDigit (c.toNat / 16), hexDigit (c.toNat % 16)]
  else [c]

/-- Models json.Marshal applied to a Go string (the external stdlib
collaborator called at src/logger.go lines 1226 and 1231): the escaped
text surrounded by double quotes. -/
def jsonMarshalString (s : Str) : Str :=
  '"' :: (s.flatMap jsonEsc ++ ['"'])

/-- Embeds (Logger).logJson (src/logger.go lines 1215-1237), byte by byte:
the field name written for the timestamp is "timestamo", the Marshal
results (which are already quoted) are wrapped in an additional pair of
quotes, and the error member is preceded by a colon rather than a comma. -/
def Logger.logJson (logger : Logger) (event : Event) : Str :=
  "\x7b\"timestamo\":\"".data ++ event.Timestamp
    ++ "\",\"logger\":\"".data ++ logger.name
    ++ "\",\"level\":\"".data ++ Level.Short event.Level
    ++ "\",\"goroutineId\":\"".data ++ event.GoroutineId
    ++ "\",\"message\":\"".data ++ jsonMarshalString event.Message
    ++ "\"".data
    ++ (match event.Err with
        | some e => ":\"error\":\"".data ++ jsonMarshalString e ++ "\"".data
        | none => ([] : Str))
    ++ "\x7d".data ++ ['\n']

/-- The renderer dispatch inside (Logger).log (src/logger.go lines
1107-1112): PLAIN goes to logPlain (which can panic on a bad width), JSON
goes to logJson. -/
def Logger.render (logger : Logger) (event : Event) : Option Str :=
  match logger.format with
  | Format.PLAIN => logger.logPlain event
  | Format.JSON => some (logger.logJson event)

/-- Embeds (Logger).log (src/logger.go lines 1105-1117): render when the
event's severity reaches the configured minimum, then, independently,
panic with the event's error cause when the severity is FATAL and
panicOnFatal is set.  A none result is a call that panicked inside the
renderer (so the explicit fatal panic was never reached). -/
def Logger.log (logger : Logger) (event : Event) : Option LogResult := do
  let output ←
    if event.Level ≥ logger.level then (logger.render event).map some
    else some none
  some { output := output
         abort :=
           if event.Level = FATAL ∧ logger.panicOnFatal = true then some event.Err
           else none }

/-- Replaces every newline character with the literal two-character
sequence backslash-n; embeds the call
strings.ReplaceAll(msg, "\n", "\\n") at src/logger.go line 1244 (for the
single-character pattern "\n", ReplaceAll substitutes each occurrence
independently). -/
def escapeNewlines : Str → Str
  | [] => []
  | c :: cs => if c = '\n' then '\\' :: 'n' :: escapeNewlines cs else c :: escapeNewlines cs

/-- Embeds the message normalisation of createEvent (src/logger.go lines
1241-1244): the read msg[len(msg)-1] indexes out of range on an empty
message and panics (modelled as none); otherwise exactly one trailing
newline is stripped if present and every remaining newline is replaced by
the literal backslash-n sequence. -/
def createEventMessage (msg : Str) : Option Str :=
  if msg = [] then none
  else if msg.getLastD ' ' = '\n' then some (escapeNewlines msg.dropLast)
  else some (escapeNewlines msg)

/-- Embeds createEvent (src/logger.go lines 1239-1252).  The current time
(already RFC3339-rendered) and the calling goroutine's resolved label are
ambient inputs, passed as the ts and gid parameters; none is the
out-of-range panic on an empty message. -/
def createEvent (level : Level) (msg : Str) (err : Option Str) (ts gid : Str) : Option Event :=
  (createEventMessage msg).map fun m =>
    { Timestamp := ts, GoroutineId := gid, Level := level, Message := m, Err := err }

/-- Embeds (Logger).Trace (src/logger.go line 983). -/
def Logger.Trace (logger : Logger) (msg : Str) (ts gid : Str) : Option LogResult :=
  (createEvent TRACE msg none ts gid).bind logger.log

/-- Embeds (Logger).Debug (src/logger.go line 984). -/
def Logger.Debug (logger : Logger) (msg : Str) (ts gid : Str) : Option LogResult :=
  (createEvent DEBUG msg none ts gid).bind logger.log

/-- Embeds (Logger).Info (src/logger.go line 985). -/
def Logger.Info (logger : Logger) (msg : Str) (ts gid : Str) : Option LogResult :=
  (createEvent INFO msg none ts gid).bind logger.log

/-- Embeds (Logger).Warn (src/logger.go line 986). -/
def Logger.Warn (logger : Logger) (msg : Str) (ts gid : Str) : Option LogResult :=
  (createEvent WARN msg none ts gid).bind logger.log

/-- Embeds (Logger).Error (src/logger.go line 987). -/
def Logger.Error (logger : Logger) (msg : Str) (ts gid : Str) : Option LogResult :=
  (createEvent ERROR msg none ts gid).bind logger.log

/-- Embeds (Logger).Fatal (src/logger.go line 988). -/
def Logger.Fatal (logger : Logger) (msg : Str) (ts gid : Str) : Option LogResult :=
  (createEvent FATAL msg none ts gid).bind logger.log

/-- Embeds (Logger).TraceErr (src/logger.go lines 1008-1012): with a nil
error the body is skipped entirely, so the call returns normally with no
event built, nothing rendered and no panic.  The formatted variant
TraceErrf (lines 1038-1042) is this function applied to the already
formatted message (fmt.Sprintf is an external collaborator). -/
def Logger.TraceErr (logger : Logger) (err : Option Str) (msg : Str) (ts gid : Str) :
    Option LogResult :=
  match err with
  | none => some { output := none, abort := none }
  | some _ => (createEvent TRACE msg err ts gid).bind logger.log

/-- Embeds (Logger).DebugErr (src/logger.go lines 1013-1017); DebugErrf
(lines 1043-1047) is this function on the formatted message. -/
def Logger.DebugErr (logger : Logger) (err : Option Str) (msg : Str) (ts gid : Str) :
    Option LogResult :=
  match err with
  | none => some { output := none, abort := none }
  | some _ => (createEvent DEBUG msg err ts gid).bind logger.log

/-- Embeds (Logger).InfoErr (src/logger.go lines 1018-1022); InfoErrf
(lines 1048-1052) is this function on the formatted message. -/
def Logger.InfoErr (logger : Logger) (err : Option Str) (msg : Str) (ts gid : Str) :
    Option LogResult :=
  match err with
  | none => some { output := none, abort := none }
  | some _ => (createEvent INFO msg err ts gid).bind logger.log

/-- Embeds (Logger).WarnErr (src/logger.go lines 1023-1027); WarnErrf
(lines 1053-1057) is this function on the formatted message. -/
def Logger.WarnErr (logger : Logger) (err : Option Str) (msg : Str) (ts gid : Str) :
    Option LogResult :=
  match err with
  | none => some { output := none, abort := none }
  | some _ => (createEvent WARN msg err ts gid).bind logger.log

/-- Embeds (Logger).ErrorErr (src/logger.go lines 1028-1032); ErrorErrf
(lines 1058-1062) is this function on the formatted message. -/
def Logger.ErrorErr (logger : Logger) (err : Option Str) (msg : Str) (ts gid : Str) :
    Option LogResult :=
  match err with
  | none => some { output := none, abort := none }
  | some _ => (createEvent ERROR msg err ts gid).bind logger.log

/-- Embeds (Logger).FatalErr (src/logger.go lines 1033-1037); FatalErrf
(lines 1063-1067) is this function on the formatted message. -/
def Logger.FatalErr (logger : Logger) (err : Option Str) (msg : Str) (ts gid : Str) :
    Option LogResult :=
  match err with
  | none => some { output := none, abort := none }
  | some _ => (createEvent FATAL msg err ts gid).bind logger.log

/-! ## A JSON acceptor

The structured-renderer claims speak of the output being "a syntactically
well-formed, parseable record".  The following acceptor formalises that
notion: it is a recursive-descent recogniser for RFC 8259 JSON texts
(fuel-bounded; the fuel argument strictly dominates the recursion and the
initial fuel is far larger than any chain of nested values an input of
that size can hold, and number syntax is accepted leniently, so the
acceptor accepts every valid JSON text). -/

/-- Hexadecimal digit test for \uXXXX escapes. -/
def isHexDig (c : Char) : Bool :=
  c.isDigit || ('a' ≤ c && c ≤ 'f') || ('A' ≤ c && c ≤ 'F')

/-- JSON insignificant whitespace. -/
def jsonWs (c : Char) : Bool :=
  c = ' ' || c = '\n' || c = '\r' || c = '\t'

/-- Drop leading JSON whitespace. -/
def skipWs (s : Str) : Str := s.dropWhile jsonWs

/-- Accept the body of a JSON string literal (after the opening quote),
returning the input after the closing quote. -/
def parseStringBody : Nat → Str → Option Str
  | 0, _ => none
  | _ + 1, [] => none
  | fuel + 1, c :: rest =>
    if c = '"' then some rest
    else if c = '\\' then
      match rest with
      | [] => none
      | e :: rest2 =>
        if e = '"' || e = '\\' || e = '/' || e = 'b' || e = 'f' || e = 'n' || e = 'r' || e = 't' then
          parseStringBody fuel rest2
        else if e = 'u' then
          match rest2 with
          | h1 :: h2 :: h3 :: h4 :: rest3 =>
            if isHexDig h1 && isHexDig h2 && isHexDig h3 && isHexDig h4 then
              parseStringBody fuel rest3
            else none
          | _ => none
        else none
    else if c.toNat < 32 then none
    else parseStringBody fuel rest

/-- Accept a JSON number (leniently: an optional minus sign, at least one
digit, then any run of digit/dot/exponent characters). -/
def parseNumberTail (s : Str) : Option Str :=
  let body := fun (t : Str) =>
    match t with
    | c :: _ =>
      if c.isDigit then
        some (t.dropWhile fun d => d.isDigit || d = '.' || d = 'e' || d = 'E' || d = '+' || d = '-')
      else none
    | [] => none
  match s with
  | '-' :: rest => body rest
  | _ => body s

/-- Accept a literal keyword such as true, false or null. -/
def stripLit (lit s : Str) : Option Str :=
  if lit.isPrefixOf s then some (s.drop lit.length) else none

mutual

/-- Accept one JSON value, returning the remaining input. -/
def parseValue : Nat → Str → Option Str
  | 0, _ => none
  | fuel + 1, s =>
    match skipWs s with
    | [] => none
    | '"' :: rest => parseStringBody (fuel + 1) rest
    | '\x7b' :: rest =>
      (match skipWs rest with
       | '\x7d' :: r2 => some r2
       | _ => parseMembers fuel rest)
    | '[' :: rest =>
      (match skipWs rest with
       | ']' :: r2 => some r2
       | _ => parseElems fuel rest)
    | 't' :: rest => stripLit ("rue".data) rest
    | 'f' :: rest => stripLit ("alse".data) rest
    | 'n' :: rest => stripLit ("ull".data) rest
    | c :: rest =>
      if c = '-' || c.isDigit then parseNumberTail (c :: rest) else none

/-- Accept a non-empty member list of a JSON object, including the closing
brace. -/
def parseMembers : Nat → Str → Option Str
  | 0, _ => none
  | fuel + 1, s =>
    match skipWs s with
    | '"' :: rest =>
      (match parseStringBody (fuel + 1) rest with
       | none => none
       | some afterKey =>
         match skipWs afterKey with
         | ':' :: afterColon =>
           (match parseValue fuel afterColon with
            | none => none
            | some afterVal =>
              match skipWs afterVal with
              | ',' :: more => parseMembers fuel more
              | '\x7d' :: r2 => some r2
              | _ => none)
         | _ => none)
    | _ => none

/-- Accept a non-empty element list of a JSON array, including the closing
bracket. -/
def parseElems : Nat → Str → Option Str
  | 0, _ => none
  | fuel + 1, s =>
    match parseValue fuel s with
    | none => none
    | some afterVal =>
      match skipWs afterVal with
      | ',' :: more => parseElems fuel more
      | ']' :: r2 => some r2
      | _ => none

end

/-- A string is a well-formed JSON text when one value parse consumes it
entirely, up to trailing whitespace. -/
def jsonWellFormed (s : Str) : Bool :=
  match parseValue (s.length + 16) s with
  | some rest => (skipWs rest).isEmpty
  | none => false

/-- Substring test: pat occurs contiguously inside s. -/
def hasSub (pat s : Str) : Bool :=
  (List.range (s.length + 1)).any fun i => pat.isPrefixOf (s.drop i)

/-! ## Supporting lemmas -/

/-- The width condition under which the guarded field shaping cannot
panic: the width is non-positive (shaping disabled), or at least 3, or at
least the field text's length. -/
def widthOk (w : Int) (s : Str) : Prop :=
  w ≤ 0 ∨ 3 ≤ w ∨ (s.length : Int) ≤ w

/-- The condition under which (Logger).log cannot panic inside the
renderer: the structured renderer never panics, and the plain renderer
panics exactly when a positive width below 3 meets a longer field text. -/
def renderOk (logger : Logger) (event : Event) : Prop :=
  logger.format = Format.JSON ∨
    (widthOk logger.maxNameLength logger.name ∧
      widthOk logger.maxGoroutineNameLength event.GoroutineId)

theorem fieldShape_isSome_of_widthOk {w : Int} {s : Str} (h : widthOk w s) :
    ∃ r, fieldShape s w = some r := by
  unfold fieldShape stringToLength
  rcases h with h | h | h
  · refine ⟨s, ?_⟩
    rw [if_neg (by omega)]
  · by_cases hgt : (s.length : Int) > w
    · exact ⟨_, by rw [if_pos (by omega), if_pos hgt, if_neg (by omega)]⟩
    · by_cases hlt : (s.length : Int) < w
      · exact ⟨_, by rw [if_pos (by omega), if_neg hgt, if_pos hlt]⟩
      · exact ⟨_, by rw [if_pos (by omega), if_neg hgt, if_neg hlt]⟩
  · by_cases hw : w > 0
    · by_cases hlt : (s.length : Int) < w
      · exact ⟨_, by rw [if_pos hw, if_neg (by omega), if_pos hlt]⟩
      · exact ⟨_, by rw [if_pos hw, if_neg (by omega), if_neg hlt]⟩
    · exact ⟨s, by rw [if_neg hw]⟩

theorem render_isSome_of_renderOk {logger : Logger} {event : Event}
    (h : renderOk logger event) : (logger.render event).isSome = true := by
  rcases h with h | ⟨h1, h2⟩
  · simp [Logger.render, h]
  · cases hf : logger.format with
    | JSON => simp [Logger.render, hf]
    | PLAIN =>
      obtain ⟨r1, hr1⟩ := fieldShape_isSome_of_widthOk h1
      obtain ⟨r2, hr2⟩ := fieldShape_isSome_of_widthOk h2
      simp [Logger.render, hf, Logger.logPlain, hr1, hr2]

/-! ## Claim C1 -/

/-- C1 (amended): severity filtering is exact threshold comparison — for
every logger configuration and event, provided that a rendered PLAIN event
does not hit the field-shaping panic (each positive width is at least 3 or
at least its field text's length), the call returns normally and a line is
produced if and only if the event's severity rank is at least the logger's
configured minimum rank. -/
theorem c1_severity_filter (logger : Logger) (event : Event)
    (h : logger.level ≤ event.Level → renderOk logger event) :
    ∃ r, logger.log event = some r ∧ (r.output.isSome = true ↔ logger.level ≤ event.Level) := by
  by_cases hle : logger.level ≤ event.Level
  · obtain ⟨line, hline⟩ := Option.isSome_iff_exists.mp (render_isSome_of_renderOk (h hle))
    refine ⟨{ output := some line
              abort := if event.Level = FATAL ∧ logger.panicOnFatal = true
                       then some event.Err else none }, ?_, by simp [hle]⟩
    simp [Logger.log, ge_iff_le, hle, hline]
  · refine ⟨{ output := none
              abort := if event.Level = FATAL ∧ logger.panicOnFatal = true
                       then some event.Err else none }, ?_, by simp [hle]⟩
    simp [Logger.log, ge_iff_le, hle]

/-- Witness for C1: a structured-format logger thresholded at WARN, with
an INFO event (dropped) replaced by concrete data — here a WARN event, so
the line is produced. -/
theorem c1_severity_filter_witness :
    ∃ r, Logger.log
        { out := Sink.other, name := "svc".data, level := WARN, format := Format.JSON
          colorizedSet := true, colors := clsOff, panicOnFatal := false
          maxNameLength := 10, maxGoroutineNameLength := 10 }
        { Timestamp := "t".data, GoroutineId := "1".data, Level := WARN
          Message := "m".data, Err := none } = some r ∧
      (r.output.isSome = true ↔
        ({ out := Sink.other, name := "svc".data, level := WARN, format := Format.JSON
           colorizedSet := true, colors := clsOff, panicOnFatal := false
           maxNameLength := 10, maxGoroutineNameLength := 10 } : Logger).level ≤
          ({ Timestamp := "t".data, GoroutineId := "1".data, Level := WARN
             Message := "m".data, Err := none } : Event).Level) :=
  c1_severity_filter _ _ (fun _ => Or.inl rfl)

/-- Concrete configuration refuting C1 as stated: PLAIN format, name field
width 1 with a four-character logger name. -/
def c1badcfg : Logger :=
  { out := Sink.other, name := "abcd".data, level := WARN, format := Format.PLAIN
    colorizedSet := true, colors := clsOff, panicOnFatal := false
    maxNameLength := 1, maxGoroutineNameLength := 0 }

/-- Concrete event refuting C1 as stated: WARN, meeting the threshold. -/
def c1badev : Event :=
  { Timestamp := "t".data, GoroutineId := "1".data, Level := WARN
    Message := "m".data, Err := none }

/-- C1 counterexample: this event's rank meets the configured minimum
rank, yet no line is produced — the plain renderer panics on the negative
slice bound in stringToLength (width 1, name length 4), so the claim's
"if and only if" fails for this configuration. -/
theorem c1_counterexample :
    c1badcfg.level ≤ c1badev.Level ∧
      ¬∃ r, Logger.log c1badcfg c1badev = some r ∧ r.output.isSome = true := by
  refine ⟨by decide, ?_⟩
  rintro ⟨r, hr, -⟩
  have h : Logger.log c1badcfg c1badev = none := by decide
  rw [h] at hr
  exact Option.noConfusion hr

/-! ## Claim C5 -/

/-- C5 (amended): fatal abort is independent of the severity filter — for
every logger with abort-on-fatal enabled and every FATAL event, provided a
rendered PLAIN event does not hit the field-shaping panic, the call ends
in a panic carrying the event's error cause (nil when no cause), even when
the threshold caused rendering to be skipped. -/
theorem c5_fatal_abort (logger : Logger) (event : Event)
    (hp : logger.panicOnFatal = true) (hf : event.Level = FATAL)
    (h : logger.level ≤ event.Level → renderOk logger event) :
    ∃ r, logger.log event = some r ∧ r.abort = some event.Err := by
  have habort : (if event.Level = FATAL ∧ logger.panicOnFatal = true
                 then some event.Err else none) = some event.Err := if_pos ⟨hf, hp⟩
  by_cases hle : logger.level ≤ event.Level
  · obtain ⟨line, hline⟩ := Option.isSome_iff_exists.mp (render_isSome_of_renderOk (h hle))
    refine ⟨{ output := some line, abort := some event.Err }, ?_, rfl⟩
    simp [Logger.log, ge_iff_le, hle, hline, habort]
  · refine ⟨{ output := none, abort := some event.Err }, ?_, rfl⟩
    simp [Logger.log, ge_iff_le, hle, habort]

/-- Concrete logger for the C5 witness: abort-on-fatal enabled and the
threshold set above FATAL, so rendering is skipped. -/
def c5wcfg : Logger :=
  { out := Sink.other, name := "svc".data, level := 6, format := Format.PLAIN
    colorizedSet := true, colors := clsOff, panicOnFatal := true
    maxNameLength := 10, maxGoroutineNameLength := 10 }

/-- Concrete FATAL event with a cause for the C5 witness. -/
def c5wev : Event :=
  { Timestamp := "t".data, GoroutineId := "1".data, Level := FATAL
    Message := "boom".data, Err := some ("boom!".data) }

/-- Witness for C5: with the threshold above FATAL the rendering is
skipped, yet the call still panics with the event's cause. -/
theorem c5_fatal_abort_witness :
    ∃ r, Logger.log c5wcfg c5wev = some r ∧ r.abort = some (some ("boom!".data)) :=
  c5_fatal_abort c5wcfg c5wev rfl rfl (fun hle => absurd hle (by decide))

/-- Concrete logger refuting C5 as stated: abort-on-fatal enabled but
PLAIN format with name width 1 and a four-character name. -/
def c5badcfg : Logger :=
  { out := Sink.other, name := "abcd".data, level := 0, format := Format.PLAIN
    colorizedSet := true, colors := clsOff, panicOnFatal := true
    maxNameLength := 1, maxGoroutineNameLength := 0 }

/-- Concrete FATAL event with a cause refuting C5 as stated. -/
def c5badev : Event :=
  { Timestamp := "t".data, GoroutineId := "1".data, Level := FATAL
    Message := "m".data, Err := some ("boom".data) }

/-- C5 counterexample: abort-on-fatal is enabled and the event is FATAL,
yet the call does not end in the claimed abort with the event's cause —
the renderer panics first (negative slice bound in stringToLength), so the
explicit panic(event.Err) is never reached. -/
theorem c5_counterexample :
    c5badcfg.panicOnFatal = true ∧ c5badev.Level = FATAL ∧
      ¬∃ r, Logger.log c5badcfg c5badev = some r ∧ r.abort = some c5badev.Err := by
  refine ⟨rfl, rfl, ?_⟩
  rintro ⟨r, hr, -⟩
  have h : Logger.log c5badcfg c5badev = none := by decide
  rw [h] at hr
  exact Option.noConfusion hr

/-! ## Claim C2 -/

/-- C2 (code evaluated at the failing input): for every severity and every
error cause, event construction with the empty message does not succeed —
createEvent reads msg[len(msg)-1], an out-of-bounds index on the empty
string, and panics; there is no guard in the code. -/
theorem c2_empty_message_crash :
    ∀ (level : Level) (err : Option Str) (ts gid : Str),
      createEvent level [] err ts gid = none :=
  fun _ _ _ _ => rfl

/-! ## Claim C4 -/

/-- C4 (amended): guarded fixed-width field shaping — width at most 0
leaves the text unchanged; a positive width with shorter text right-pads
with spaces to exactly that width; a width of at least 3 with longer text
yields exactly the width, ending in the three-character ellipsis.  (For a
positive width below 3 and longer text the code panics; see the
counterexample.) -/
theorem c4_field_shaping :
    (∀ (s : Str) (w : Int), w ≤ 0 → fieldShape s w = some s) ∧
    (∀ (s : Str) (w : Int), 0 < w → (s.length : Int) < w →
      ∃ r, fieldShape s w = some r ∧ (r.length : Int) = w ∧
        r = s ++ List.replicate (w - s.length).toNat ' ') ∧
    (∀ (s : Str) (w : Int), 3 ≤ w → w < (s.length : Int) →
      ∃ r, fieldShape s w = some r ∧ (r.length : Int) = w ∧ ∃ t, r = t ++ ("...".data)) := by
  refine ⟨?_, ?_, ?_⟩
  · intro s w hw
    rw [fieldShape, if_neg (by omega)]
  · intro s w hw hlt
    refine ⟨_, ?_, ?_, rfl⟩
    · rw [fieldShape, if_pos (by omega), stringToLength, if_neg (by omega), if_pos hlt]
    · simp only [List.length_append, List.length_replicate]
      push_cast
      omega
  · intro s w hw hlt
    refine ⟨s.take (w - 3).toNat ++ "...".data, ?_, ?_,
      ⟨s.take (w - 3).toNat, rfl⟩⟩
    · rw [fieldShape, if_pos (by omega), stringToLength, if_pos (by omega), if_neg (by omega)]
    · have hmin : min (w - 3).toNat s.length = (w - 3).toNat :=
        Nat.min_eq_left (by omega)
      have h3 : ("...".data).length = 3 := rfl
      simp only [List.length_append, List.length_take, hmin, h3]
      push_cast
      omega

/-- Witness for C4: the three regimes at concrete inputs — width -1 leaves
"ab" unchanged; width 4 pads "ab" to length 4; width 4 truncates "abcdef"
to length 4 with an ellipsis suffix. -/
theorem c4_field_shaping_witness :
    fieldShape ("ab".data) (-1) = some ("ab".data) ∧
    (∃ r, fieldShape ("ab".data) 4 = some r ∧ (r.length : Int) = 4 ∧
      r = "ab".data ++ List.replicate ((4 : Int) - (("ab".data).length : Int)).toNat ' ') ∧
    (∃ r, fieldShape ("abcdef".data) 4 = some r ∧ (r.length : Int) = 4 ∧
      ∃ t, r = t ++ ("...".data)) :=
  ⟨c4_field_shaping.1 _ _ (by decide),
   c4_field_shaping.2.1 _ _ (by decide) (by decide),
   c4_field_shaping.2.2 _ _ (by decide) (by decide)⟩

/-- C4 counterexample: width 1 is positive and "abcd" is longer than 1,
but the shaping produces no result at all — s[:1-3] is a negative slice
bound and the call panics — so the claim's clause for every positive width
fails at width 1. -/
theorem c4_counterexample :
    (0 : Int) < 1 ∧ (1 : Int) < (("abcd".data).length : Int) ∧
      ¬∃ r, fieldShape ("abcd".data) 1 = some r := by
  refine ⟨by decide, by decide, ?_⟩
  rintro ⟨r, hr⟩
  have h : fieldShape ("abcd".data) 1 = none := by decide
  rw [h] at hr
  exact Option.noConfusion hr

/-! ## Claim C7 -/

/-- After escapeNewlines, no raw newline remains. -/
theorem not_mem_escapeNewlines (l : Str) : '\n' ∉ escapeNewlines l := by
  induction l with
  | nil => simp [escapeNewlines]
  | cons c cs ih =>
    by_cases hc : c = '\n'
    · simp only [escapeNewlines, if_pos hc, List.mem_cons]
      rintro (h | h | h)
      · exact absurd h (by decide)
      · exact absurd h (by decide)
      · exact ih h
    · simp only [escapeNewlines, if_neg hc, List.mem_cons]
      rintro (h | h)
      · exact hc h.symm
      · exact ih h

/-- A successful createEventMessage result never holds a raw newline. -/
theorem createEventMessage_no_newline (msg m : Str)
    (h : createEventMessage msg = some m) : '\n' ∉ m := by
  simp only [createEventMessage] at h
  split at h
  · exact Option.noConfusion h
  · split at h
    · cases h
      exact not_mem_escapeNewlines _
    · cases h
      exact not_mem_escapeNewlines _

/-- C7: message normalisation — for every non-empty message, construction
succeeds; exactly one trailing newline is stripped when present (and none
otherwise), every remaining newline is replaced by the literal
backslash-n sequence, and the stored event message holds no raw newline. -/
theorem c7_message_normalization (msg : Str) (hne : msg ≠ []) :
    (∀ msg', msg = msg' ++ ['\n'] → createEventMessage msg = some (escapeNewlines msg')) ∧
    ((∀ msg', msg ≠ msg' ++ ['\n']) → createEventMessage msg = some (escapeNewlines msg)) ∧
    (∀ m, createEventMessage msg = some m → '\n' ∉ m) ∧
    (∀ (level : Level) (err : Option Str) (ts gid : Str) (e : Event),
      createEvent level msg err ts gid = some e → '\n' ∉ e.Message) := by
  obtain ⟨L, b, hmsg⟩ : ∃ L b, msg = L ++ [b] := by
    rcases List.eq_nil_or_concat msg with h | ⟨L, b, h⟩
    · exact absurd h hne
    · exact ⟨L, b, by simpa [List.concat_eq_append] using h⟩
  subst hmsg
  refine ⟨?_, ?_, fun m hm => createEventMessage_no_newline _ m hm, ?_⟩
  · intro msg' h
    have hb : b = '\n' := by
      have := congrArg (fun l => List.getLastD l ' ') h
      simpa using this
    have hL : L = msg' := by
      have := congrArg List.dropLast h
      simpa using this
    subst hb
    subst hL
    rw [createEventMessage, if_neg (by simp), if_pos (by simp), List.dropLast_concat]
  · intro hno
    have hb : b ≠ '\n' := fun hb => hno L (by rw [hb])
    rw [createEventMessage, if_neg (by simp), if_neg (by simpa using hb)]
  · intro level err ts gid e he
    rw [createEvent] at he
    cases hmm : createEventMessage (L ++ [b]) with
    | none => rw [hmm] at he; exact Option.noConfusion he
    | some m =>
      rw [hmm] at he
      cases he
      exact createEventMessage_no_newline _ m hmm

/-- Witness for C7: the message "a\nb\n" is normalised to the literal
four-character text a backslash n b, with the trailing newline stripped
and no raw newline remaining. -/
theorem c7_message_normalization_witness :
    createEventMessage ("a\nb\n".data) = some ("a\\nb".data) ∧ '\n' ∉ ("a\\nb".data) :=
  ⟨((c7_message_normalization ("a\nb\n".data) (by decide)).1 ("a\nb".data)
      (by decide)).trans (by decide),
   by decide⟩

/-! ## Claim C6 -/

/-- C6 (code evaluated at the failing input, plus the true half): for
every severity, the error-bearing variants with a nil error are complete
no-ops — no event, no output, no panic; the non-error variants, however,
do not construct an event for the empty message: createEvent panics on the
out-of-bounds index, refuting "always construct an event regardless of
message content". -/
theorem c6_err_nil_noop_and_empty_message_crash :
    (∀ (logger : Logger) (msg ts gid : Str),
      logger.TraceErr none msg ts gid = some { output := none, abort := none } ∧
      logger.DebugErr none msg ts gid = some { output := none, abort := none } ∧
      logger.InfoErr none msg ts gid = some { output := none, abort := none } ∧
      logger.WarnErr none msg ts gid = some { output := none, abort := none } ∧
      logger.ErrorErr none msg ts gid = some { output := none, abort := none } ∧
      logger.FatalErr none msg ts gid = some { output := none, abort := none }) ∧
    (∀ (logger : Logger) (ts gid : Str),
      logger.Trace [] ts gid = none ∧ logger.Debug [] ts gid = none ∧
      logger.Info [] ts gid = none ∧ logger.Warn [] ts gid = none ∧
      logger.Error [] ts gid = none ∧ logger.Fatal [] ts gid = none) :=
  ⟨fun _ _ _ _ => ⟨rfl, rfl, rfl, rfl, rfl, rfl⟩,
   fun _ _ _ => ⟨rfl, rfl, rfl, rfl, rfl, rfl⟩⟩

/-! ## Claim C9 -/

/-- C9: for every logger (in particular with abort-on-fatal enabled) and
every message, FatalErr with a nil error performs nothing at all — no
event is built, no output is written and the calling thread is not
terminated, because the nil-error short-circuit precedes the fatal-abort
check. -/
theorem c9_fatal_err_nil_noop :
    ∀ (logger : Logger) (msg ts gid : Str),
      logger.FatalErr none msg ts gid = some { output := none, abort := none } :=
  fun _ _ _ _ => rfl

/-! ## Claim C3 -/

/-- Concrete structured-format logger for evaluating the claim. -/
def c3cfg : Logger :=
  { out := Sink.other, name := "svc".data, level := TRACE, format := Format.JSON
    colorizedSet := true, colors := clsOff, panicOnFatal := false
    maxNameLength := 10, maxGoroutineNameLength := 10 }

/-- The structured line the code emits for Info("hi") on c3cfg: the
timestamp field is spelled "timestamo", and the Marshal result (already
quoted) sits inside a second pair of quotes. -/
def c3out : Str :=
  ("\x7b\"timestamo\":\"2024-01-02T03:04:05Z\",\"logger\":\"svc\"," ++
    "\"level\":\"I\",\"goroutineId\":\"1\",\"message\":\"\"hi\"\"\x7d\n").data

/-- The structured line the code emits for InfoErr(x, "hi") on c3cfg: in
addition, the error member is joined with a colon instead of a comma. -/
def c3outErr : Str :=
  ("\x7b\"timestamo\":\"2024-01-02T03:04:05Z\",\"logger\":\"svc\"," ++
    "\"level\":\"I\",\"goroutineId\":\"1\",\"message\":\"\"hi\"\"" ++
    ":\"error\":\"\"x\"\"\x7d\n").data

/-- C3 (code evaluated at the failing input): the structured renderer's
output for a plain ASCII message is not a well-formed JSON text — the
message value is double-quoted ""hi"" — and it has no field named
timestamp (the code writes "timestamo"); with an error cause present the
output is likewise not well-formed (a colon joins the error member). -/
theorem c3_json_malformed :
    Logger.Info c3cfg ("hi".data) ("2024-01-02T03:04:05Z".data) ("1".data)
      = some { output := some c3out, abort := none } ∧
    jsonWellFormed c3out = false ∧
    hasSub ("\"timestamp\"".data) c3out = false ∧
    Logger.InfoErr c3cfg (some ("x".data)) ("hi".data)
        ("2024-01-02T03:04:05Z".data) ("1".data)
      = some { output := some c3outErr, abort := none } ∧
    jsonWellFormed c3outErr = false :=
  ⟨rfl, by decide, by decide, rfl, by decide⟩

/-! ## Claim C8 -/

/-- The logger of the spec's concrete scenario 1: named "svc", threshold
WARN, PLAIN format, color off, name width 5, thread width 0. -/
def c8cfg : Logger :=
  { out := Sink.other, name := "svc".data, level := WARN, format := Format.PLAIN
    colorizedSet := true, colors := clsOff, panicOnFatal := false
    maxNameLength := 5, maxGoroutineNameLength := 0 }

/-- C8 (code evaluated at the failing input): with color off,
Warn("disk low") produces the line of the claimed shape but with the
package-level ANSI reset sequence appended before the newline — logPlain
writes colors.END unconditionally — so the line is not exactly the claimed
`ts -W- [svc  ] (1) disk low` text. -/
theorem c8_plain_line_has_reset :
    Logger.Warn c8cfg ("disk low".data) ("2024-01-02T03:04:05Z".data) ("1".data)
      = some { output := some ("2024-01-02T03:04:05Z -W- [svc  ] (1) disk low\x1b[0m\n".data), abort := none } ∧
    ("2024-01-02T03:04:05Z -W- [svc  ] (1) disk low\x1b[0m\n".data) ≠
      ("2024-01-02T03:04:05Z -W- [svc  ] (1) disk low\n".data) :=
  ⟨rfl, by decide⟩

/-! ## Claim C10 -/

/-- Concrete WARN event used to exhibit the ANSI escapes of a fresh
logger attached to a non-file sink. -/
def c10ev : Event :=
  { Timestamp := "t".data, GoroutineId := "7".data, Level := WARN
    Message := "m".data, Err := none }

/-- C10: a newly constructed logger starts with the colors-on palette
while color counts as unforced; attaching a non-file sink through Out
leaves the palette unchanged (for every logger, forced or not); hence a
fresh logger attached to an in-memory sink still emits ANSI escape
sequences in PLAIN output; and Colorized(false) then switches the palette
off. -/
theorem c10_fresh_logger_colors :
    (∀ (n : Str) (stderr : Sink),
      (NewLogger n stderr).colors = clsOn ∧ (NewLogger n stderr).colorizedSet = false) ∧
    (∀ logger : Logger, (logger.Out Sink.other).colors = logger.colors) ∧
    (∃ line, Logger.log ((NewLogger ("svc".data) (Sink.file true)).Out Sink.other) c10ev
        = some { output := some line, abort := none } ∧ '\x1b' ∈ line) ∧
    (((NewLogger ("svc".data) (Sink.file true)).Out Sink.other).Colorized false).colors
      = clsOff := by
  refine ⟨fun n stderr => ⟨rfl, rfl⟩, ?_, ⟨_, rfl, by decide⟩, rfl⟩
  intro logger
  simp only [Logger.Out]
  split <;> rfl
